import Mathlib

/-!
Shallow embedding of the `mcp` repository (payment orchestrator and
weather multi-agent pipeline) and proofs about the behaviour its
specification describes.

Sources embedded:
* `src/mcp_payment_langgraph/orchestrator.py` — request classifier
  (`_analyze_request`), routers (`_route_actions`, `_check_next_action`,
  `_check_dispute_needed`), the workflow graph of `_build_graph`, the
  per-user transaction memory, and the aggregator (`_format_response`).
* `src/weather_langgraph/langgraph_multi_agent.py` — `RetryAgent`,
  `GeocodeAgent`, `CacheAgent`, and the `run_multi_agent` pipeline.
-/

namespace Spec2Proof

/-- `charsBeginWith p l` holds when `p` is an initial segment of `l`. -/
def charsBeginWith : List Char → List Char → Bool
  | [], _ => true
  | _ :: _, [] => false
  | a :: p, b :: l => a == b && charsBeginWith p l

/-- `charsContain p l` holds when `p` occurs as a contiguous run inside `l`. -/
def charsContain (p : List Char) : List Char → Bool
  | [] => p.isEmpty
  | b :: l => charsBeginWith p (b :: l) || charsContain p l

/-- Python's `pat in s` substring test on strings (case-sensitive). -/
def strContains (s pat : String) : Bool :=
  charsContain pat.toList s.toList

/-- Python's `str.lower()`, character by character (the orchestrator's
keywords and requests are ASCII, where the two coincide).  Defined by a
structural `List.map` rather than `String.toLower` so that it evaluates by
kernel reduction. -/
def pyLower (s : String) : String :=
  ⟨s.data.map Char.toLower⟩

/-! ### Classifier (`PaymentOrchestrator._analyze_request`) -/

/-- Keyword group for the `get_transactions` tag. -/
def transactionKeywords : List String := ["transaction", "payment", "high value", "last 5"]

/-- Keyword group for the `raise_dispute` tag. -/
def disputeKeywords : List String := ["dispute", "raise dispute", "failed", "pending"]

/-- Keyword group for the `get_rm` tag. -/
def rmKeywords : List String := ["relationship manager", "manager", "rm"]

/-- Keyword group for the `verify_transaction` tag. -/
def verifyKeywords : List String := ["verify", "credited", "credit", "check transaction"]

/-- Keyword group for the `check_nostro` tag. -/
def nostroKeywords : List String :=
  ["nostro", "euro nostro", "export settlement", "euro account", "euro credit"]

/-- Keyword group for the `get_nostro_accounts` tag. -/
def nostroAccountsKeywords : List String :=
  ["nostro accounts", "correspondent accounts", "nostro list"]

/-- All keywords the classifier recognises, across the six groups. -/
def allKeywords : List String :=
  transactionKeywords ++ disputeKeywords ++ rmKeywords ++ verifyKeywords ++
    nostroKeywords ++ nostroAccountsKeywords

/-- `any(keyword in user_input for keyword in group)`. -/
def hasAnyKeyword (u : String) (group : List String) : Bool :=
  group.any (fun k => strContains u k)

/-- The action list `_analyze_request` builds, as a function of the six
keyword-group matches, appended in the order of the Python code; the final
conditional mirrors `if "raise_dispute" in actions and "get_rm" not in
actions: actions.append("get_rm")`. -/
def mkActions (t d r v n na : Bool) : List String :=
  let actions :=
    (if t then ["get_transactions"] else []) ++
    (if d then ["raise_dispute"] else []) ++
    (if r then ["get_rm"] else []) ++
    (if v then ["verify_transaction"] else []) ++
    (if n then ["check_nostro"] else []) ++
    (if na then ["get_nostro_accounts"] else [])
  if "raise_dispute" ∈ actions ∧ "get_rm" ∉ actions then actions ++ ["get_rm"]
  else actions

/-- `PaymentOrchestrator._analyze_request`: lower-case the request text and
match each keyword group. -/
def analyzeRequest (userInput : String) : List String :=
  mkActions
    (hasAnyKeyword (pyLower userInput) transactionKeywords)
    (hasAnyKeyword (pyLower userInput) disputeKeywords)
    (hasAnyKeyword (pyLower userInput) rmKeywords)
    (hasAnyKeyword (pyLower userInput) verifyKeywords)
    (hasAnyKeyword (pyLower userInput) nostroKeywords)
    (hasAnyKeyword (pyLower userInput) nostroAccountsKeywords)

/-! ### Routers -/

/-- `PaymentOrchestrator._route_actions`: pick the first pending action in
the fixed priority order of the Python `if`/`elif` chain. -/
def routeActions (actions : List String) : String :=
  if "check_nostro" ∈ actions then "check_nostro_credit"
  else if "get_nostro_accounts" ∈ actions then "get_nostro_accounts"
  else if "get_transactions" ∈ actions then "get_transactions"
  else if "verify_transaction" ∈ actions then "verify_transaction"
  else if "get_rm" ∈ actions then "get_rm"
  else "format_response"

/-- Written from the spec's words, for the refinement comparison of C2: a
static priority table (nostro credit check, nostro-accounts listing,
transaction retrieval, verification, relationship-manager lookup), the
first tag present wins, falling through to the aggregator. -/
def routePriorityTable : List (String × String) :=
  [("check_nostro", "check_nostro_credit"),
   ("get_nostro_accounts", "get_nostro_accounts"),
   ("get_transactions", "get_transactions"),
   ("verify_transaction", "verify_transaction"),
   ("get_rm", "get_rm")]

/-- Spec-side router: first entry of the priority table whose tag is
present; otherwise the aggregator. -/
def routeSpec (actions : List String) : String :=
  match routePriorityTable.find? (fun p => decide (p.1 ∈ actions)) with
  | some p => p.2
  | none => "format_response"

/-- `PaymentOrchestrator._check_next_action` (router after `get_transactions`). -/
def checkNextAction (actions : List String) : String :=
  if "raise_dispute" ∈ actions then "raise_dispute" else "format_response"

/-- `PaymentOrchestrator._check_dispute_needed` (router after
`get_relationship_manager`). -/
def checkDisputeNeeded (actions : List String) : String :=
  if "raise_dispute" ∈ actions then "raise_dispute" else "format_response"

/-! ### Workflow graph (`PaymentOrchestrator._build_graph`) -/

/-- The nodes of the payment workflow graph. -/
inductive Node where
  | analyzeRequestNode
  | getTransactionsNode
  | getRelationshipManagerNode
  | raiseDisputeNode
  | verifyTransactionNode
  | checkNostroCreditNode
  | getNostroAccountsNode
  | formatResponseNode
  deriving DecidableEq

/-- The conditional-edge mapping attached to `analyze_request` in
`_build_graph`: router output string to target node. -/
def entryTarget : String → Option Node
  | "get_transactions" => some .getTransactionsNode
  | "get_rm" => some .getRelationshipManagerNode
  | "verify_transaction" => some .verifyTransactionNode
  | "check_nostro_credit" => some .checkNostroCreditNode
  | "get_nostro_accounts" => some .getNostroAccountsNode
  | "format_response" => some .formatResponseNode
  | _ => none

/-- Successor relation of the payment workflow graph.  The routers read
only `action_needed`, which is fixed by `analyze_request`, so the visit
order is a function of the action list.  `format_response` leads to END
(`none`).  From `get_transactions` the label `raise_dispute` is wired to
`get_relationship_manager` in `_build_graph`. -/
def nextNode (actions : List String) : Node → Option Node
  | .analyzeRequestNode => entryTarget (routeActions actions)
  | .getTransactionsNode =>
      some (if checkNextAction actions = "raise_dispute"
            then .getRelationshipManagerNode else .formatResponseNode)
  | .getRelationshipManagerNode =>
      some (if checkDisputeNeeded actions = "raise_dispute"
            then .raiseDisputeNode else .formatResponseNode)
  | .raiseDisputeNode => some .formatResponseNode
  | .verifyTransactionNode => some .formatResponseNode
  | .checkNostroCreditNode => some .formatResponseNode
  | .getNostroAccountsNode => some .formatResponseNode
  | .formatResponseNode => none

/-- Visit order of the graph starting at `n`, with enough fuel for the
(acyclic, depth at most five) payment graph. -/
def traceFrom (actions : List String) : Nat → Node → List Node
  | 0, n => [n]
  | fuel + 1, n =>
      n :: (match nextNode actions n with
            | some m => traceFrom actions fuel m
            | none => [])

/-- The node visit order for a given request text: classify, then walk the
graph from the entry node. -/
def runTrace (s : String) : List Node :=
  traceFrom (analyzeRequest s) 8 .analyzeRequestNode

/-! ### Per-user transaction memory (`user_transaction_memory`) -/

/-- A transaction record, with the fields the orchestrator touches.
Monetary amounts are carried as their rendered text: the service produces
them, no claim computes with them. -/
structure Txn where
  transaction_id : String
  currency : String
  amount : String
  status : String
  transaction_date : String
  recipient_name : String
  deriving DecidableEq

/-- The per-user memory `user_transaction_memory`: user id to retained
transactions, most recent first (a `deque(maxlen=5)` read left to right). -/
def TxnMemory : Type := String → List Txn

/-- The fresh memory of `PaymentOrchestrator.__init__`: a `defaultdict`
where every key starts empty. -/
def emptyMemory : TxnMemory := fun _ => []

/-- `self.user_transaction_memory[user_id].appendleft(txn)` on a deque with
`maxlen=5`: prepend, keeping only the five newest entries; on overflow the
tail — the oldest entry — is evicted. -/
def recordTxn (mem : TxnMemory) (userId : String) (txn : Txn) : TxnMemory :=
  fun u => if u = userId then (txn :: mem userId).take 5 else mem u

/-- `get_last_transactions_for_user`:
`list(self.user_transaction_memory[user_id])`. -/
def getLastTransactionsForUser (mem : TxnMemory) (userId : String) : List Txn :=
  mem userId

/-- A sequence of record operations applied in order. -/
def applyRecords (mem : TxnMemory) : List (String × Txn) → TxnMemory
  | [] => mem
  | (u, t) :: ops => applyRecords (recordTxn mem u t) ops

/-! ### Aggregator (`PaymentOrchestrator._format_response`)

The aggregator renders the populated optional fields of the graph state
into sections joined by blank lines.  Dict payloads are modelled as
structures with the fields `_format_response` reads: keys it reads with
`[...]` are plain fields, keys it reads with `.get(..., default)` are
`Option` fields rendered through `getD`.  Monetary amounts (`:,.2f`
float formatting) are carried as their rendered text. -/

/-- Relationship-manager record (`get_relationship_manager_details`),
rendered with `[...]` indexing throughout. -/
structure RM where
  name : String
  email : String
  phone : String
  branch : String
  specialization : List String
  experience_years : Nat
  deriving DecidableEq

/-- The `assigned_manager` sub-dict of a dispute, read with
`.get(..., "N/A")`. -/
structure AssignedManager where
  name : Option String
  email : Option String
  deriving DecidableEq

/-- A successful dispute record, fields read with `.get(..., "")`. -/
structure Dispute where
  dispute_id : Option String
  transaction_id : Option String
  status : Option String
  assigned_manager : Option AssignedManager
  deriving DecidableEq

/-- `dispute_details`: either `{"error": ...}` or a dispute record. -/
inductive DisputeVal where
  | err (msg : String)
  | ok (d : Dispute)
  deriving DecidableEq

/-- A verification record; `is_credited` models truthiness of the
`.get("is_credited")` value, `credited_amount` and `credited_date` are
present exactly when truthy. -/
structure Verification where
  transaction_id : Option String
  is_credited : Bool
  verification_status : Option String
  notes : Option String
  credited_amount : Option String
  credited_date : Option String
  deriving DecidableEq

/-- `verification_result`: either `{"error": ...}` or a record. -/
inductive VerificationVal where
  | err (msg : String)
  | ok (v : Verification)
  deriving DecidableEq

/-- The `nostro_account` sub-dict of a nostro credit result. -/
structure NostroAccount where
  account_id : Option String
  currency : Option String
  correspondent_bank : Option String
  correspondent_swift : Option String
  current_balance : Option String
  available_balance : Option String
  deriving DecidableEq

/-- One export settlement of a nostro credit result. -/
structure Settlement where
  is_credited : Bool
  settlement_id : Option String
  export_reference : Option String
  amount : Option String
  currency : Option String
  counterparty : Option String
  status : Option String
  settlement_date : Option String
  actual_credit_date : Option String
  deriving DecidableEq

/-- The `summary` sub-dict of a nostro credit result. -/
structure NostroSummary where
  total_settlements : Option Nat
  credited_count : Option Nat
  total_credited_amount : Option String
  pending_count : Option Nat
  total_pending_amount : Option String
  deriving DecidableEq

/-- `nostro_credit_result`: error, or status/message plus optional account
details, settlements (absent and empty both render nothing) and summary. -/
inductive NostroCreditVal where
  | err (msg : String)
  | ok (status : Option String) (message : Option String)
      (nostro_account : Option NostroAccount)
      (settlements : List Settlement)
      (summary : Option NostroSummary)
  deriving DecidableEq

/-- One account of the nostro-accounts listing. -/
structure NostroListedAccount where
  account_id : Option String
  currency : Option String
  account_type : Option String
  correspondent_bank : Option String
  correspondent_swift : Option String
  balance : Option String
  account_status : Option String
  deriving DecidableEq

/-- `nostro_accounts`: error, or filter/count plus the account list. -/
inductive NostroAccountsVal where
  | err (msg : String)
  | ok (currency_filter : Option String) (total_count : Option Nat)
      (accounts : List NostroListedAccount)
  deriving DecidableEq

/-- The optional result fields of `PaymentGraphState` that the aggregator
reads, plus the `final_response` it writes.  (The request text, messages
and action list are not read by `_format_response`.) -/
structure PaymentGraphState where
  transactions : Option (List Txn)
  relationship_manager : Option RM
  dispute_details : Option DisputeVal
  verification_result : Option VerificationVal
  nostro_credit_result : Option NostroCreditVal
  nostro_accounts : Option NostroAccountsVal
  final_response : String
  deriving DecidableEq

/-- The initial state built by `process_request`: every optional field
`None` and an empty final response. -/
def initialState : PaymentGraphState :=
  ⟨none, none, none, none, none, none, ""⟩

/-- Python `str(n)` for the counters the aggregator renders. -/
def natStr (n : Nat) : String := toString n

/-- `s[:10]` on the settlement date strings. -/
def strTake (s : String) (n : Nat) : String := ⟨s.data.take n⟩

/-- One numbered entry of the transactions section. -/
def renderTxnLine (i : Nat) (t : Txn) : String :=
  natStr i ++ ". Transaction ID: " ++ t.transaction_id ++ "\n" ++
  "   Amount: " ++ t.currency ++ " " ++ t.amount ++ "\n" ++
  "   Status: " ++ t.status ++ "\n" ++
  "   Date: " ++ t.transaction_date ++ "\n" ++
  "   Recipient: " ++ t.recipient_name ++ "\n"

/-- `enumerate(txns, 1)`: one part per transaction. -/
def enumTxnParts (i : Nat) : List Txn → List String
  | [] => []
  | t :: ts => renderTxnLine i t :: enumTxnParts (i + 1) ts

/-- Transactions section: `txns = state.get("transactions") or []` then
`if txns:`. -/
def txnSectionParts (o : Option (List Txn)) : List String :=
  let ts := o.getD []
  if ts.isEmpty then [] else "**High Value Transactions (Last 5):**" :: enumTxnParts 1 ts

/-- Relationship-manager section (`if rm:`; the service record is a
non-empty dict, so presence is truthiness). -/
def rmSectionParts (o : Option RM) : List String :=
  match o with
  | none => []
  | some rm =>
      ["**Relationship Manager Details:**\n" ++
       "Name: " ++ rm.name ++ "\n" ++
       "Email: " ++ rm.email ++ "\n" ++
       "Phone: " ++ rm.phone ++ "\n" ++
       "Branch: " ++ rm.branch ++ "\n" ++
       "Specialization: " ++ String.intercalate ", " rm.specialization ++ "\n" ++
       "Experience: " ++ natStr rm.experience_years ++ " years"]

/-- `dispute.get("assigned_manager", {}).get("name", "N/A")`. -/
def assignedName (m : Option AssignedManager) : String :=
  match m with
  | none => "N/A"
  | some a => a.name.getD "N/A"

/-- `dispute.get("assigned_manager", {}).get("email", "N/A")`. -/
def assignedEmail (m : Option AssignedManager) : String :=
  match m with
  | none => "N/A"
  | some a => a.email.getD "N/A"

/-- Dispute section: error branch on `"error" in dispute`. -/
def disputeSectionParts (o : Option DisputeVal) : List String :=
  match o with
  | none => []
  | some (.err msg) => ["**Dispute Error:** " ++ msg]
  | some (.ok d) =>
      ["**Dispute Raised Successfully:**\n" ++
       "Dispute ID: " ++ d.dispute_id.getD "" ++ "\n" ++
       "Transaction ID: " ++ d.transaction_id.getD "" ++ "\n" ++
       "Status: " ++ d.status.getD "" ++ "\n" ++
       "Assigned Manager: " ++ assignedName d.assigned_manager ++ "\n" ++
       "Manager Contact: " ++ assignedEmail d.assigned_manager]

/-- Verification section, with the two conditional trailing parts. -/
def verificationSectionParts (o : Option VerificationVal) : List String :=
  match o with
  | none => []
  | some (.err msg) => ["**Verification Error:** " ++ msg]
  | some (.ok v) =>
      ("**Transaction Verification:**\n" ++
       "Transaction ID: " ++ v.transaction_id.getD "" ++ "\n" ++
       "Is Credited: " ++ (if v.is_credited then "Yes" else "No") ++ "\n" ++
       "Status: " ++ v.verification_status.getD "" ++ "\n" ++
       "Notes: " ++ v.notes.getD "") ::
      ((match v.credited_amount with
        | some a => ["Credited Amount: USD " ++ a]
        | none => []) ++
       (match v.credited_date with
        | some d => ["Credited Date: " ++ d]
        | none => []))

/-- The `**Account Details:**` part of the nostro credit section. -/
def nostroAccountPart (acc : NostroAccount) : String :=
  "**Account Details:**\n" ++
  "Account ID: " ++ acc.account_id.getD "" ++ "\n" ++
  "Currency: " ++ acc.currency.getD "" ++ "\n" ++
  "Correspondent Bank: " ++ acc.correspondent_bank.getD "" ++ "\n" ++
  "SWIFT: " ++ acc.correspondent_swift.getD "" ++ "\n" ++
  "Current Balance: " ++ acc.currency.getD "EUR" ++ " " ++ acc.current_balance.getD "0.00" ++ "\n" ++
  "Available Balance: " ++ acc.currency.getD "EUR" ++ " " ++ acc.available_balance.getD "0.00"

/-- The parts of one numbered settlement, with the conditional credited
date. -/
def settlementParts (i : Nat) (s : Settlement) : List String :=
  (natStr i ++ ". " ++ (if s.is_credited then "✅" else "⏳") ++
   " Settlement ID: " ++ s.settlement_id.getD "" ++ "\n" ++
   "   Export Reference: " ++ s.export_reference.getD "" ++ "\n" ++
   "   Amount: " ++ s.currency.getD "EUR" ++ " " ++ s.amount.getD "0.00" ++ "\n" ++
   "   Counterparty: " ++ s.counterparty.getD "" ++ "\n" ++
   "   Status: " ++ s.status.getD "" ++ "\n" ++
   "   Settlement Date: " ++
     (match s.settlement_date with | some d => strTake d 10 | none => "")) ::
  (match s.actual_credit_date with
   | some d => ["   Credited Date: " ++ strTake d 10]
   | none => [])

/-- `enumerate(settlements, 1)`. -/
def enumSettlementParts (i : Nat) : List Settlement → List String
  | [] => []
  | s :: ss => settlementParts i s ++ enumSettlementParts (i + 1) ss

/-- The `**Summary:**` part of the nostro credit section. -/
def nostroSummaryPart (su : NostroSummary) : String :=
  "**Summary:**\n" ++
  "Total Settlements: " ++ natStr (su.total_settlements.getD 0) ++ "\n" ++
  "Credited: " ++ natStr (su.credited_count.getD 0) ++
    " (EUR " ++ su.total_credited_amount.getD "0.00" ++ ")\n" ++
  "Pending: " ++ natStr (su.pending_count.getD 0) ++
    " (EUR " ++ su.total_pending_amount.getD "0.00" ++ ")"

/-- Nostro-credit section. -/
def nostroCreditSectionParts (o : Option NostroCreditVal) : List String :=
  match o with
  | none => []
  | some (.err msg) => ["**Euro Nostro Error:** " ++ msg]
  | some (.ok status message acct settlements summary) =>
      ["**Euro Nostro Account Credit Status:**",
       "Status: " ++ status.getD "unknown",
       "Message: " ++ message.getD ""] ++
      (match acct with | some a => [nostroAccountPart a] | none => []) ++
      (if settlements.isEmpty then []
       else "**Export Settlements:**" :: enumSettlementParts 1 settlements) ++
      (match summary with | some su => [nostroSummaryPart su] | none => [])

/-- One numbered account of the nostro-accounts listing. -/
def renderListedAccount (i : Nat) (a : NostroListedAccount) : String :=
  natStr i ++ ". Account ID: " ++ a.account_id.getD "" ++ "\n" ++
  "   Currency: " ++ a.currency.getD "" ++ "\n" ++
  "   Type: " ++ a.account_type.getD "" ++ "\n" ++
  "   Correspondent: " ++ a.correspondent_bank.getD "" ++ "\n" ++
  "   SWIFT: " ++ a.correspondent_swift.getD "" ++ "\n" ++
  "   Balance: " ++ a.currency.getD "" ++ " " ++ a.balance.getD "0.00" ++ "\n" ++
  "   Status: " ++ a.account_status.getD ""

/-- `enumerate(accounts, 1)`. -/
def enumListedAccounts (i : Nat) : List NostroListedAccount → List String
  | [] => []
  | a :: rest => renderListedAccount i a :: enumListedAccounts (i + 1) rest

/-- Nostro-accounts section. -/
def nostroAccountsSectionParts (o : Option NostroAccountsVal) : List String :=
  match o with
  | none => []
  | some (.err msg) => ["**Nostro Accounts Error:** " ++ msg]
  | some (.ok filt cnt accounts) =>
      ("**Nostro Accounts (" ++ filt.getD "all" ++ " filter):**") ::
      ("Total Count: " ++ natStr (cnt.getD 0)) ::
      enumListedAccounts 1 accounts

/-- Labels for the aggregator's sections, in source declaration order. -/
inductive SectionTag where
  | transactionsSection
  | rmSection
  | disputeSection
  | verificationSection
  | nostroCreditSection
  | nostroAccountsSection
  deriving DecidableEq

/-- The fixed declaration order of the sections in `_format_response`. -/
def sectionOrder : List SectionTag :=
  [.transactionsSection, .rmSection, .disputeSection, .verificationSection,
   .nostroCreditSection, .nostroAccountsSection]

/-- The aggregator's sections, tagged by their source field, in the order
`_format_response` appends them.  A field contributes a section exactly
when its parts list is non-empty. -/
def formatSections (st : PaymentGraphState) : List (SectionTag × List String) :=
  (let ps := txnSectionParts st.transactions
   if ps.isEmpty then [] else [(SectionTag.transactionsSection, ps)]) ++
  (let ps := rmSectionParts st.relationship_manager
   if ps.isEmpty then [] else [(SectionTag.rmSection, ps)]) ++
  (let ps := disputeSectionParts st.dispute_details
   if ps.isEmpty then [] else [(SectionTag.disputeSection, ps)]) ++
  (let ps := verificationSectionParts st.verification_result
   if ps.isEmpty then [] else [(SectionTag.verificationSection, ps)]) ++
  (let ps := nostroCreditSectionParts st.nostro_credit_result
   if ps.isEmpty then [] else [(SectionTag.nostroCreditSection, ps)]) ++
  (let ps := nostroAccountsSectionParts st.nostro_accounts
   if ps.isEmpty then [] else [(SectionTag.nostroAccountsSection, ps)])

/-- `PaymentOrchestrator._format_response`: flatten the sections into
`response_parts`, fall back to the fixed no-action sentence when empty,
and join with blank lines into `final_response`. -/
def formatResponse (st : PaymentGraphState) : PaymentGraphState :=
  let parts := ((formatSections st).map Prod.snd).flatten
  { st with
    final_response :=
      String.intercalate "\n\n"
        (if parts.isEmpty
         then ["No actions were performed. Please specify what you\x27d like to do."]
         else parts) }

/-- A population step: writing one optional result field of the state (the
writes the worker nodes perform before the aggregator runs). -/
inductive PopOp where
  | setTransactions (v : Option (List Txn))
  | setRelationshipManager (v : Option RM)
  | setDisputeDetails (v : Option DisputeVal)
  | setVerificationResult (v : Option VerificationVal)
  | setNostroCreditResult (v : Option NostroCreditVal)
  | setNostroAccounts (v : Option NostroAccountsVal)
  deriving DecidableEq

/-- Which field a population step writes. -/
def popField : PopOp → Nat
  | .setTransactions _ => 0
  | .setRelationshipManager _ => 1
  | .setDisputeDetails _ => 2
  | .setVerificationResult _ => 3
  | .setNostroCreditResult _ => 4
  | .setNostroAccounts _ => 5

/-- Apply one population step. -/
def applyPop (st : PaymentGraphState) : PopOp → PaymentGraphState
  | .setTransactions v => { st with transactions := v }
  | .setRelationshipManager v => { st with relationship_manager := v }
  | .setDisputeDetails v => { st with dispute_details := v }
  | .setVerificationResult v => { st with verification_result := v }
  | .setNostroCreditResult v => { st with nostro_credit_result := v }
  | .setNostroAccounts v => { st with nostro_accounts := v }

/-- Apply population steps in sequence. -/
def applyPops (st : PaymentGraphState) (ops : List PopOp) : PaymentGraphState :=
  ops.foldl applyPop st

/-! ### Weather pipeline: values and dicts -/

/-- A Python value as the weather pipeline state holds it: a string, a
number, or `None`.  The only numbers that arise are the four coordinate
float literals and they are only ever compared for equality, so they are
recorded exactly as integers in units of `10⁻⁴` degrees. -/
inductive Value where
  | vstr (s : String)
  | vnum (n : Int)
  | vnone
  deriving DecidableEq

/-- A Python dict as used by the agents, by its lookup behaviour: an
association list where the first binding for a key wins. -/
abbrev Dict : Type := List (String × Value)

/-- `d.get(k)` / `d[k]`-style lookup. -/
def dget (d : Dict) (k : String) : Option Value :=
  (List.find? (fun p => p.1 == k) d).map Prod.snd

/-- `d[k] = v`: rebind `k` (drop any previous binding). -/
def dset (d : Dict) (k : String) (v : Value) : Dict :=
  (k, v) :: List.filter (fun p => !(p.1 == k)) d

/-- Python truthiness of the modelled values: `None`, `""` and `0` are
falsy. -/
def truthy : Option Value → Bool
  | none => false
  | some .vnone => false
  | some (.vstr s) => s != ""
  | some (.vnum q) => q != 0

/-! ### Weather pipeline agents (`langgraph_multi_agent.py`) -/

/-- Module constant `DEFAULT_LOCATION`. -/
def DEFAULT_LOCATION : String := "Sacramento, CA"

/-- Module constant `DEFAULT_LATITUDE`: the float literal `38.5816`, in
units of `10⁻⁴` degrees. -/
def DEFAULT_LATITUDE : Int := 385816

/-- Module constant `DEFAULT_LONGITUDE`: the float literal `-121.4944`, in
units of `10⁻⁴` degrees. -/
def DEFAULT_LONGITUDE : Int := -1214944

/-- `GeocodeAgent.run`: builds `{"latitude": ..., "longitude": ...,
**state}` — the spread of the prior state comes last, so its bindings
override the freshly computed coordinates; in the association-list model
the state's entries are placed first so they win on lookup.  `none` models
the `AttributeError` raised were `location_name` bound to a non-string
(`.lower()` on it). -/
def geocodeRun (state : Dict) : Option Dict :=
  match (dget state "location_name").getD (Value.vstr DEFAULT_LOCATION) with
  | Value.vstr locname =>
      some (state ++
        (if pyLower locname == pyLower DEFAULT_LOCATION
         then [("latitude", Value.vnum DEFAULT_LATITUDE),
               ("longitude", Value.vnum DEFAULT_LONGITUDE)]
         else [("latitude", Value.vnum 377749),
               ("longitude", Value.vnum (-1224194))]))
  | _ => none

/-- Characters matched by the `[A-Za-z ,]` class of the location pattern. -/
def classChar (c : Char) : Bool := c.isAlpha || c == ' ' || c == ','

/-- `re.search(r"in ([A-Za-z ,]+)", query)`: the group at the earliest
position where the literal `"in "` is followed by at least one class
character, the group being the maximal run of class characters; when the
`+` cannot match, the search resumes at the next position. -/
def reSearchIn : List Char → Option (List Char)
  | [] => none
  | c :: tl =>
      if c == 'i' then
        match tl with
        | 'n' :: ' ' :: rest =>
            let g := rest.takeWhile classChar
            if g.isEmpty then reSearchIn tl else some g
        | _ => reSearchIn tl
      else reSearchIn tl

/-- `.strip()` on the matched group (whose characters admit only spaces as
whitespace). -/
def stripSpaces (l : List Char) : List Char :=
  ((l.dropWhile (· == ' ')).reverse.dropWhile (· == ' ')).reverse

/-- The fresh dict `QueryParserAgent.run` returns when the query is
missing, empty or not a string. -/
def defaultParsed : Dict :=
  [("location_name", Value.vstr DEFAULT_LOCATION),
   ("intent", Value.vstr "weather"),
   ("query", Value.vstr "")]

/-- `QueryParserAgent.run`: returns a fresh dict (the prior state is
discarded), with the extracted location, the intent, and the query. -/
def queryParserRun (state : Dict) : Dict :=
  match dget state "query" with
  | some (Value.vstr q) =>
      if q == "" then defaultParsed
      else
        [("location_name", Value.vstr
            (match reSearchIn q.data with
             | some g => ⟨stripSpaces g⟩
             | none => DEFAULT_LOCATION)),
         ("intent", Value.vstr
            (if strContains q "activity" || strContains q "suggest" then "activity"
             else if strContains q "book" || strContains q "playground" then "booking"
             else "weather")),
         ("query", Value.vstr q)]
  | some _ => defaultParsed
  | none => defaultParsed

/-- `TimeAgent.run`: writes `state["date"]` from the query text and
returns the mutated state.  `none` models the `TypeError` were the query a
number (`in` on it). -/
def timeRun (state : Dict) : Option Dict :=
  match (dget state "query").getD (Value.vstr "") with
  | Value.vstr q =>
      if strContains q "tomorrow" then some (dset state "date" (Value.vstr "2025-08-06"))
      else if strContains q "today" then some (dset state "date" (Value.vstr "2025-08-05"))
      else some (dset state "date" (Value.vstr "2025-08-05"))
  | _ => none

/-- The cache key: the `(latitude, longitude, date)` lookups whose `str()`
renderings the Python joins with commas into the key string.  The triple
is kept as such: on the values arising here the renderings of distinct
triples are distinct. -/
abbrev CacheKey := Option Value × Option Value × Option Value

/-- The process-wide `CacheAgent.cache` mapping. -/
abbrev Cache := List (CacheKey × Value)

/-- The key built inside `CacheAgent.run` and `run_multi_agent`. -/
def cacheKey (state : Dict) : CacheKey :=
  (dget state "latitude", dget state "longitude", dget state "date")

/-- Cache lookup (`key in self.cache` / `self.cache[key]`). -/
def clookup (c : Cache) (k : CacheKey) : Option Value :=
  (List.find? (fun p => decide (p.1 = k)) c).map Prod.snd

/-- `CacheAgent.update_cache`. -/
def cupdate (c : Cache) (k : CacheKey) (v : Value) : Cache :=
  (k, v) :: List.filter (fun p => !decide (p.1 = k)) c

/-- `CacheAgent.run`: write the cached value, or `None` on a miss, into
`state["cached_weather"]`. -/
def cacheRun (cache : Cache) (state : Dict) : Dict :=
  match clookup cache (cacheKey state) with
  | some v => dset state "cached_weather" v
  | none => dset state "cached_weather" Value.vnone

/-- `WeatherAgent.run`: returns a fresh dict holding only `"weather"` —
every other key of the incoming state is discarded.  `none` stands for the
unmodelled rendering of a non-zero numeric location; the pipeline never
reaches it. -/
def weatherRun (state : Dict) : Option Dict :=
  match dget state "location" with
  | none => some [("weather", Value.vstr "No location provided.")]
  | some Value.vnone => some [("weather", Value.vstr "No location provided.")]
  | some (Value.vstr s) =>
      if s == "" then some [("weather", Value.vstr "No location provided.")]
      else some [("weather", Value.vstr ("Sunny in " ++ s))]
  | some (Value.vnum q) =>
      if q == 0 then some [("weather", Value.vstr "No location provided.")] else none

/-- `PlaygroundBookingAgent.run`.  `none` models the `TypeError` were the
weather value a number. -/
def playgroundBookingRun (state : Dict) : Option Dict :=
  match (dget state "weather").getD (Value.vstr "") with
  | Value.vstr w =>
      if strContains w "Sunny" || strContains w "Clear" then
        some (dset state "playground_booking" (Value.vstr "Playground booked!"))
      else
        some (dset state "playground_booking" (Value.vstr "Playground not booked due to weather."))
  | _ => none

/-- `str(value)` as the response f-string renders it; numeric values are
left unmodelled (float repr), and never arise in the formatted keys. -/
def pyShow : Option Value → Option String
  | none => some "None"
  | some Value.vnone => some "None"
  | some (Value.vstr s) => some s
  | some (Value.vnum _) => none

/-- `ResponseFormatterAgent.run`: a fresh dict holding the formatted
response. -/
def responseFormatterRun (state : Dict) : Option Dict :=
  match pyShow (dget state "location_name"), pyShow (dget state "weather"),
      pyShow (dget state "activities"), pyShow (dget state "playground"),
      pyShow (dget state "alerts") with
  | some a, some b, some c, some d, some e =>
      some [("response", Value.vstr
        ("Location: " ++ a ++ "\nWeather: " ++ b ++ "\nActivities: " ++ c ++
         "\nPlayground: " ++ d ++ "\nAlerts: " ++ e))]
  | _, _, _, _, _ => none

/-- The tail of `run_multi_agent` after the weather value is settled: the
weather-dependent branch (playground booking plus activities text), then
the response formatter.  Returns the final state, the cache to carry to
the next run, and the number of weather-step invocations. -/
def finishRun (st : Dict) (c : Cache) (n : Nat) : Option (Dict × Cache × Nat) :=
  match (dget st "weather").getD (Value.vstr "") with
  | Value.vstr w =>
      match playgroundBookingRun st with
      | none => none
      | some st6 =>
          let activities :=
            if strContains w "Sunny" || strContains w "Clear" then
              "Outdoor activities: soccer, tennis, picnic."
            else if strContains w "Rain" || strContains w "Showers" then
              "Indoor activities: board games, reading, movies."
            else "Check local events or try creative indoor hobbies."
          match responseFormatterRun (dset st6 "activities" (Value.vstr activities)) with
          | none => none
          | some st8 => some (st8, c, n)
  | _ => none

/-- One run of `run_multi_agent`, with the process-wide cache threaded
explicitly and the weather-step invocations counted.  The audit log, which
affects neither the response nor the cache, is not modelled.  On a cache
hit the cached value becomes `state["weather"]` and the weather step is
skipped; on a miss the weather step runs and the cache is updated under
the key recomputed from the state the weather step returned. -/
def runMultiAgent (cache : Cache) (query : Value) : Option (Dict × Cache × Nat) :=
  let st1 := queryParserRun [("query", query)]
  match timeRun st1 with
  | none => none
  | some st2 =>
      match geocodeRun st2 with
      | none => none
      | some st3 =>
          let st4 := cacheRun cache st3
          if truthy (dget st4 "cached_weather") then
            match dget st4 "cached_weather" with
            | some wv => finishRun (dset st4 "weather" wv) cache 0
            | none => none
          else
            match weatherRun st4 with
            | none => none
            | some st5 =>
                match dget st5 "weather" with
                | some w => finishRun st5 (cupdate cache (cacheKey st5) w) 1
                | none => none

/-! ### Retry combinator (`RetryAgent.run`) -/

/-- The failure classifier inside `RetryAgent.run`:
`any(v for v in result.values() if isinstance(v, str) and ("Unable" in v or
"No" in v))`.  A value matching the filter contains a non-empty marker, so
it is a non-empty string and therefore truthy; the test is thus exactly:
some string value contains `"Unable"` or `"No"` (no trailing space). -/
def isFailure (result : Dict) : Bool :=
  result.any (fun p =>
    match p.2 with
    | .vstr s => strContains s "Unable" || strContains s "No"
    | _ => false)

/-- The failure classifier as claim C5 words it, for comparison: markers
`"Unable"` and `"No "` with a trailing space. -/
def claimedFailure (result : Dict) : Bool :=
  result.any (fun p =>
    match p.2 with
    | .vstr s => strContains s "Unable" || strContains s "No "
    | _ => false)

/-- The attempt loop of `RetryAgent.run`.  `i` is the index of the current
attempt (the wrapped step is modelled as the sequence of results it would
return on successive invocations); the `Nat` argument is the number of
attempts remaining after the current one.  On the last attempt the result
is returned whether or not it is classified a failure, exactly as the
Python `return result` after the loop.  The returned `Nat` is the total
number of invocations of the wrapped step. -/
def retryGo (step : Nat → Dict) (i : Nat) : Nat → Dict × Nat
  | 0 => (step i, i + 1)
  | r + 1 => if isFailure (step i) then retryGo step (i + 1) r else (step i, i + 1)

/-- `RetryAgent.run` with bound `max_retries`.  `none` models the
`max_retries = 0` case, where the Python loop body never runs and the
trailing `return result` hits an unbound local. -/
def retryRun (step : Nat → Dict) (maxRetries : Nat) : Option (Dict × Nat) :=
  match maxRetries with
  | 0 => none
  | n + 1 => some (retryGo step 0 n)

/-! ### Theorems for C1, C2, C8 -/

theorem mkActions_dispute_rm_nodup (t d r v n na : Bool) :
    ("raise_dispute" ∈ mkActions t d r v n na →
      "get_rm" ∈ mkActions t d r v n na) ∧
      (mkActions t d r v n na).Nodup := by
  revert t d r v n na; decide

/-- C1: for every request text, the tag list produced by `_analyze_request`
contains `get_rm` whenever it contains `raise_dispute`, and no tag occurs
more than once (in particular `get_rm` is not duplicated when keyword
matching already yields both tags). -/
theorem analyze_request_dispute_implies_rm_and_nodup (s : String) :
    ("raise_dispute" ∈ analyzeRequest s → "get_rm" ∈ analyzeRequest s) ∧
      (analyzeRequest s).Nodup :=
  mkActions_dispute_rm_nodup _ _ _ _ _ _

/-- Witness for C1 at the request `"please raise dispute"`, where keyword
matching yields `raise_dispute` (and `get_rm` only implicitly). -/
theorem analyze_request_dispute_implies_rm_and_nodup_witness :
    "get_rm" ∈ analyzeRequest "please raise dispute" ∧
      (analyzeRequest "please raise dispute").Nodup :=
  ⟨(analyze_request_dispute_implies_rm_and_nodup "please raise dispute").1 (by decide),
   (analyze_request_dispute_implies_rm_and_nodup "please raise dispute").2⟩

/-- C2: `_route_actions` agrees with the spec's static priority list
(nostro credit check, then nostro-accounts listing, then transaction
retrieval, then verification, then relationship-manager lookup, then the
aggregator), and whenever `check_nostro` is present it returns
`check_nostro_credit` regardless of the other tags. -/
theorem route_actions_matches_priority_list (actions : List String) :
    routeActions actions = routeSpec actions ∧
      ("check_nostro" ∈ actions → routeActions actions = "check_nostro_credit") := by
  refine ⟨?_, fun h => by simp [routeActions, h]⟩
  by_cases h1 : "check_nostro" ∈ actions <;>
    by_cases h2 : "get_nostro_accounts" ∈ actions <;>
      by_cases h3 : "get_transactions" ∈ actions <;>
        by_cases h4 : "verify_transaction" ∈ actions <;>
          by_cases h5 : "get_rm" ∈ actions <;>
            simp [routeActions, routeSpec, routePriorityTable, h1, h2, h3, h4, h5]

/-- Witness for C2 at a state with multiple pending tags including
`check_nostro`. -/
theorem route_actions_matches_priority_list_witness :
    routeActions ["get_transactions", "check_nostro", "get_rm"] =
        routeSpec ["get_transactions", "check_nostro", "get_rm"] ∧
      routeActions ["get_transactions", "check_nostro", "get_rm"] = "check_nostro_credit" :=
  ⟨(route_actions_matches_priority_list ["get_transactions", "check_nostro", "get_rm"]).1,
   (route_actions_matches_priority_list ["get_transactions", "check_nostro", "get_rm"]).2
     (by decide)⟩

theorem applyRecords_append (mem : TxnMemory) (l₁ l₂ : List (String × Txn)) :
    applyRecords mem (l₁ ++ l₂) = applyRecords (applyRecords mem l₁) l₂ := by
  induction l₁ generalizing mem with
  | nil => rfl
  | cons p l₁ ih => cases p; simp [applyRecords, ih]

/-- The retained history for `u` after any record sequence from the empty
memory: the five most recently recorded entries for `u`, newest first. -/
theorem applyRecords_get (ops : List (String × Txn)) (u : String) :
    applyRecords emptyMemory ops u =
      (((ops.filter (fun p => p.1 == u)).map Prod.snd).reverse).take 5 := by
  induction ops using List.reverseRecOn with
  | nil => rfl
  | append_singleton ops p ih =>
    cases p with
    | mk v t =>
      rw [applyRecords_append]
      simp only [applyRecords, List.filter_append, List.map_append, List.reverse_append]
      by_cases hv : v = u
      · subst hv
        simp only [recordTxn, if_pos rfl, ih, List.filter_cons, beq_self_eq_true,
          if_pos, List.filter_nil, List.map_cons, List.map_nil, List.reverse_cons,
          List.reverse_nil, List.nil_append, List.singleton_append, List.take_succ_cons,
          List.take_take]
        rfl
      · have hbeq : (v == u) = false := beq_eq_false_iff_ne.mpr hv
        have hv' : ¬u = v := fun h => hv h.symm
        simp [recordTxn, hv', ih, List.filter_cons, hbeq]

/-! ### Theorems for C3 -/

/-- C3: the per-actor transaction memory is bounded by five entries per key
under every record sequence; its content is the most recently recorded
entries, most recent first (which `get_last_transactions_for_user`
returns); and recording into a key that already holds five entries evicts
the oldest (tail) entry. -/
theorem memory_bounded_most_recent_first (ops : List (String × Txn)) (u : String)
    (mem : TxnMemory) (t : Txn)
    (hfull : (getLastTransactionsForUser mem u).length = 5) :
    (getLastTransactionsForUser (applyRecords emptyMemory ops) u).length ≤ 5 ∧
      getLastTransactionsForUser (applyRecords emptyMemory ops) u =
        (((ops.filter (fun p => p.1 == u)).map Prod.snd).reverse).take 5 ∧
      getLastTransactionsForUser (recordTxn mem u t) u =
        t :: (getLastTransactionsForUser mem u).dropLast := by
  refine ⟨?_, applyRecords_get ops u, ?_⟩
  · show (applyRecords emptyMemory ops u).length ≤ 5
    rw [applyRecords_get]
    simp [List.length_take]
  · have h5 : (mem u).length = 5 := hfull
    show recordTxn mem u t u = t :: (mem u).dropLast
    simp only [recordTxn]
    rw [if_pos trivial, List.take_succ_cons, List.dropLast_eq_take, h5]

/-- Witness for C3: six records under one key leave the five newest,
newest first, and the sixth insertion evicts the oldest entry. -/
theorem memory_bounded_most_recent_first_witness :
    (getLastTransactionsForUser
        (applyRecords emptyMemory
          (["a", "b", "c", "d", "e"].map
            (fun i => ("ACC1", Txn.mk i "USD" "10.00" "completed" "2024-01-01" "R")))) "ACC1").length
        = 5 ∧
      getLastTransactionsForUser
          (recordTxn
            (applyRecords emptyMemory
              (["a", "b", "c", "d", "e"].map
                (fun i => ("ACC1", Txn.mk i "USD" "10.00" "completed" "2024-01-01" "R"))))
            "ACC1" (Txn.mk "f" "USD" "10.00" "completed" "2024-01-01" "R")) "ACC1" =
        ["f", "e", "d", "c", "b"].map
          (fun i => Txn.mk i "USD" "10.00" "completed" "2024-01-01" "R") := by
  have h :=
    memory_bounded_most_recent_first
      (["a", "b", "c", "d", "e"].map
        (fun i => ("ACC1", Txn.mk i "USD" "10.00" "completed" "2024-01-01" "R")))
      "ACC1"
      (applyRecords emptyMemory
        (["a", "b", "c", "d", "e"].map
          (fun i => ("ACC1", Txn.mk i "USD" "10.00" "completed" "2024-01-01" "R"))))
      (Txn.mk "f" "USD" "10.00" "completed" "2024-01-01" "R")
      (by decide)
  exact ⟨by decide, by rw [h.2.2]; decide⟩

theorem retryGo_always_fail (step : Nat → Dict)
    (hfail : ∀ i, isFailure (step i) = true) :
    ∀ r i, retryGo step i r = (step (i + r), i + r + 1) := by
  intro r
  induction r with
  | zero => intro i; simp [retryGo]
  | succ r ih =>
    intro i
    rw [retryGo, hfail i, if_pos rfl, ih (i + 1)]
    ring_nf

/-! ### Theorems for C4 -/

/-- C4: `RetryAgent.run` with `max_retries = N ≥ 1` on a step whose every
result is classified a failure invokes the step exactly `N` times and
returns the `N`-th result unchanged (no distinct error state). -/
theorem retry_always_fail_runs_n_times (step : Nat → Dict) (N : Nat) (hN : 1 ≤ N)
    (hfail : ∀ i, isFailure (step i) = true) :
    retryRun step N = some (step (N - 1), N) := by
  obtain ⟨n, rfl⟩ : ∃ n, N = n + 1 := ⟨N - 1, (Nat.succ_pred_eq_of_pos hN).symm⟩
  rw [retryRun, retryGo_always_fail step hfail n 0]
  simp

/-- Witness for C4 at `N = 3` and an always-failing step. -/
theorem retry_always_fail_runs_n_times_witness :
    retryRun (fun _ => [("weather", Value.vstr "Unable to fetch alerts")]) 3 =
      some ([("weather", Value.vstr "Unable to fetch alerts")], 3) := by
  have h :=
    retry_always_fail_runs_n_times
      (fun _ => [("weather", Value.vstr "Unable to fetch alerts")]) 3
      (by decide)
      (fun i => by
        show isFailure [("weather", Value.vstr "Unable to fetch alerts")] = true
        decide)
  exact h

/-! ### Theorems for C5 -/

theorem charsBeginWith_iff (p : List Char) :
    ∀ l, charsBeginWith p l = true ↔ ∃ t, l = p ++ t := by
  induction p with
  | nil => intro l; simp [charsBeginWith]
  | cons a p ih =>
    intro l
    cases l with
    | nil =>
      simp only [charsBeginWith, List.cons_append]
      constructor
      · intro h; exact absurd h (by simp)
      · rintro ⟨t, ht⟩; exact absurd ht (by simp)
    | cons b l =>
      rw [charsBeginWith, Bool.and_eq_true, beq_iff_eq, ih l]
      constructor
      · rintro ⟨rfl, t, rfl⟩; exact ⟨t, rfl⟩
      · rintro ⟨t, ht⟩
        injection ht with h1 h2
        exact ⟨h1.symm, t, h2⟩

theorem charsContain_iff (p : List Char) :
    ∀ l, charsContain p l = true ↔ ∃ l₁ l₂, l = l₁ ++ (p ++ l₂) := by
  intro l
  induction l with
  | nil =>
    rw [charsContain, List.isEmpty_iff]
    constructor
    · rintro rfl; exact ⟨[], [], rfl⟩
    · rintro ⟨l₁, l₂, h⟩
      obtain ⟨h1, h2⟩ := List.append_eq_nil.mp h.symm
      exact (List.append_eq_nil.mp h2).1
  | cons b l ih =>
    rw [charsContain, Bool.or_eq_true, charsBeginWith_iff, ih]
    constructor
    · rintro (⟨t, ht⟩ | ⟨l₁, l₂, rfl⟩)
      · exact ⟨[], t, by simpa using ht⟩
      · exact ⟨b :: l₁, l₂, rfl⟩
    · rintro ⟨l₁, l₂, h⟩
      cases l₁ with
      | nil => exact Or.inl ⟨l₂, by simpa using h⟩
      | cons c l₁ =>
        injection h with h1 h2
        exact Or.inr ⟨l₁, l₂, h2⟩

/-- `pat in s` holds exactly when `s` decomposes around an occurrence of
`pat`. -/
theorem strContains_iff (s pat : String) :
    strContains s pat = true ↔ ∃ l₁ l₂, s.data = l₁ ++ (pat.data ++ l₂) :=
  charsContain_iff pat.data s.data

/-- The retry failure classifier fires exactly when some string-valued
field contains `"Unable"` or `"No"` (without a trailing space) as a
case-sensitive substring. -/
theorem isFailure_iff (result : Dict) :
    isFailure result = true ↔
      ∃ p ∈ result, ∃ s : String, p.2 = Value.vstr s ∧
        ((∃ l₁ l₂, s.data = l₁ ++ ("Unable".data ++ l₂)) ∨
         (∃ l₁ l₂, s.data = l₁ ++ ("No".data ++ l₂))) := by
  rw [isFailure, List.any_eq_true]
  constructor
  · rintro ⟨p, hp, hmatch⟩
    refine ⟨p, hp, ?_⟩
    cases hv : p.2 with
    | vstr s =>
      rw [hv] at hmatch
      have hm : (strContains s "Unable" || strContains s "No") = true := hmatch
      rw [Bool.or_eq_true, strContains_iff, strContains_iff] at hm
      exact ⟨s, rfl, hm⟩
    | vnum q => rw [hv] at hmatch; exact absurd hmatch (by simp)
    | vnone => rw [hv] at hmatch; exact absurd hmatch (by simp)
  · rintro ⟨p, hp, s, hs, hsub⟩
    refine ⟨p, hp, ?_⟩
    rw [hs]
    show (strContains s "Unable" || strContains s "No") = true
    rw [Bool.or_eq_true, strContains_iff, strContains_iff]
    exact hsub

/-- Counterexample to C5 as stated: the code's marker is `"No"` with no
trailing space, so `{"weather": "Normal conditions"}` — which contains
neither `"Unable"` nor `"No "` — is still classified a failure and is
retried rather than returned immediately (two invocations under
`max_retries = 2`, not one). -/
theorem retry_failure_marker_counterexample :
    isFailure [("weather", Value.vstr "Normal conditions")] = true ∧
      claimedFailure [("weather", Value.vstr "Normal conditions")] = false ∧
      retryRun (fun _ => [("weather", Value.vstr "Normal conditions")]) 2 =
        some ([("weather", Value.vstr "Normal conditions")], 2) := by
  refine ⟨by decide, by decide, ?_⟩
  show some (retryGo (fun _ => [("weather", Value.vstr "Normal conditions")]) 0 1) = _
  rw [retryGo, if_pos (by decide)]
  rfl

/-- C5 (amended): the failure classifier deems a result a failure iff some
string-valued field contains `"Unable"` or `"No"` — without a trailing
space — as a case-sensitive substring; a result with no such field is
returned immediately (one invocation), whatever the retry bound. -/
theorem retry_failure_classifier_amended (result : Dict) (step : Nat → Dict)
    (n : Nat) (hok : isFailure (step 0) = false) :
    (isFailure result = true ↔
      ∃ p ∈ result, ∃ s : String, p.2 = Value.vstr s ∧
        ((∃ l₁ l₂, s.data = l₁ ++ ("Unable".data ++ l₂)) ∨
         (∃ l₁ l₂, s.data = l₁ ++ ("No".data ++ l₂)))) ∧
      retryRun step (n + 1) = some (step 0, 1) := by
  refine ⟨isFailure_iff result, ?_⟩
  cases n with
  | zero => rfl
  | succ r =>
    show some (retryGo step 0 (r + 1)) = _
    rw [retryGo, hok, if_neg (by simp)]

/-- Witness for C5 (amended) at a failing result (the real alert failure
text) and a succeeding step under `max_retries = 3`. -/
theorem retry_failure_classifier_amended_witness :
    isFailure [("alerts", Value.vstr "Unable to fetch alerts or no alerts found.")] = true ∧
      retryRun (fun _ => [("weather", Value.vstr "Sunny in Sacramento, CA")]) 3 =
        some ([("weather", Value.vstr "Sunny in Sacramento, CA")], 1) := by
  have h :=
    retry_failure_classifier_amended
      [("alerts", Value.vstr "Unable to fetch alerts or no alerts found.")]
      (fun _ => [("weather", Value.vstr "Sunny in Sacramento, CA")]) 2
      (by
        show isFailure [("weather", Value.vstr "Sunny in Sacramento, CA")] = false
        decide)
  refine ⟨h.1.mpr ?_, h.2⟩
  refine ⟨("alerts", Value.vstr "Unable to fetch alerts or no alerts found."),
    by simp, "Unable to fetch alerts or no alerts found.", rfl, Or.inl ?_⟩
  exact ⟨[], " to fetch alerts or no alerts found.".data, by decide⟩

/-- C8: the request `"raise dispute on a failed transaction"` classifies to
exactly `[get_transactions, raise_dispute, get_rm]`, and the run visits
`get_transactions`, `get_relationship_manager`, `raise_dispute`, then
`format_response`, in that order. -/
theorem dispute_scenario_tags_and_trace :
    analyzeRequest "raise dispute on a failed transaction" =
        ["get_transactions", "raise_dispute", "get_rm"] ∧
      runTrace "raise dispute on a failed transaction" =
        [.analyzeRequestNode, .getTransactionsNode, .getRelationshipManagerNode,
         .raiseDisputeNode, .formatResponseNode] := by
  constructor <;> decide

/-! ### Theorems for C6 and C7 -/

theorem applyPop_comm (x y : PopOp) (hxy : popField x ≠ popField y)
    (z : PaymentGraphState) :
    applyPop (applyPop z x) y = applyPop (applyPop z y) x := by
  cases x <;> cases y <;> first
    | rfl
    | exact absurd rfl hxy

theorem chunk_tag_sublist (tag : SectionTag) (ps : List String) :
    List.Sublist
      (List.map Prod.fst
        (if ps.isEmpty then ([] : List (SectionTag × List String)) else [(tag, ps)]))
      [tag] := by
  by_cases h : ps.isEmpty <;> simp [h]

/-- The tags of the sections the aggregator emits always form a sublist of
the fixed declaration order. -/
theorem formatSections_tags_sublist (st : PaymentGraphState) :
    List.Sublist ((formatSections st).map Prod.fst) sectionOrder := by
  show List.Sublist ((formatSections st).map Prod.fst)
    ([SectionTag.transactionsSection] ++ [SectionTag.rmSection] ++
      [SectionTag.disputeSection] ++ [SectionTag.verificationSection] ++
        [SectionTag.nostroCreditSection] ++ [SectionTag.nostroAccountsSection])
  rw [formatSections]
  simp only [List.map_append]
  exact (((((chunk_tag_sublist _ _).append (chunk_tag_sublist _ _)).append
    (chunk_tag_sublist _ _)).append (chunk_tag_sublist _ _)).append
      (chunk_tag_sublist _ _)).append (chunk_tag_sublist _ _)

/-- C6: populating the same optional result fields with the same values in
any order yields the same aggregator output, and the emitted sections
always appear in the fixed declaration order: transactions,
relationship-manager, dispute, verification, nostro-credit-check,
nostro-accounts. -/
theorem format_response_perm_invariant_and_ordered (ops₁ ops₂ : List PopOp)
    (st : PaymentGraphState) (hperm : ops₁.Perm ops₂)
    (hdistinct : ops₁.Pairwise (fun a b => popField a ≠ popField b)) :
    formatResponse (applyPops st ops₁) = formatResponse (applyPops st ops₂) ∧
      List.Sublist ((formatSections (applyPops st ops₁)).map Prod.fst) sectionOrder := by
  have hsym : Symmetric (fun a b : PopOp => popField a ≠ popField b) :=
    fun _ _ h e => h e.symm
  have hstates : applyPops st ops₁ = applyPops st ops₂ := by
    apply hperm.foldl_eq'
    intro x hx y hy z
    rcases eq_or_ne x y with rfl | hne
    · rfl
    · exact applyPop_comm x y (hdistinct.forall hsym hx hy hne) z
  exact ⟨congrArg formatResponse hstates, formatSections_tags_sublist _⟩

/-- Witness for C6: writing the relationship-manager field and then the
transactions field gives the same response as the reverse order. -/
theorem format_response_perm_invariant_and_ordered_witness :
    (formatResponse (applyPops initialState
        [PopOp.setRelationshipManager (some (RM.mk "Sarah" "s@b.com" "555" "Downtown" ["Payments"] 8)),
         PopOp.setTransactions (some [Txn.mk "TXN001" "USD" "150,000.00" "completed" "2024-01-01" "Acme"])]) =
      formatResponse (applyPops initialState
        [PopOp.setTransactions (some [Txn.mk "TXN001" "USD" "150,000.00" "completed" "2024-01-01" "Acme"]),
         PopOp.setRelationshipManager (some (RM.mk "Sarah" "s@b.com" "555" "Downtown" ["Payments"] 8))])) ∧
      List.Sublist ((formatSections (applyPops initialState
        [PopOp.setRelationshipManager (some (RM.mk "Sarah" "s@b.com" "555" "Downtown" ["Payments"] 8)),
         PopOp.setTransactions (some [Txn.mk "TXN001" "USD" "150,000.00" "completed" "2024-01-01" "Acme"])])).map
          Prod.fst) sectionOrder :=
  format_response_perm_invariant_and_ordered
    [PopOp.setRelationshipManager (some (RM.mk "Sarah" "s@b.com" "555" "Downtown" ["Payments"] 8)),
     PopOp.setTransactions (some [Txn.mk "TXN001" "USD" "150,000.00" "completed" "2024-01-01" "Acme"])]
    [PopOp.setTransactions (some [Txn.mk "TXN001" "USD" "150,000.00" "completed" "2024-01-01" "Acme"]),
     PopOp.setRelationshipManager (some (RM.mk "Sarah" "s@b.com" "555" "Downtown" ["Payments"] 8))]
    initialState
    (List.Perm.swap _ _ _)
    (by decide)

/-- C7: a request whose lower-cased text contains none of the recognised
keywords classifies to the empty tag list, the entry router sends it
straight to the aggregator, and the aggregator on the untouched initial
state produces exactly the fixed no-action sentence. -/
theorem no_keyword_empty_tags_direct_to_aggregator (s : String)
    (h : ∀ k ∈ allKeywords, strContains (pyLower s) k = false) :
    analyzeRequest s = [] ∧
      routeActions (analyzeRequest s) = "format_response" ∧
      runTrace s = [.analyzeRequestNode, .formatResponseNode] ∧
      (formatResponse initialState).final_response =
        "No actions were performed. Please specify what you\x27d like to do." := by
  have h6 : ∀ g : List String, (∀ k ∈ g, k ∈ allKeywords) →
      hasAnyKeyword (pyLower s) g = false := by
    intro g hg
    rw [hasAnyKeyword, List.any_eq_false]
    intro k hk
    simpa using h k (hg k hk)
  have hempty : analyzeRequest s = [] := by
    rw [analyzeRequest,
      h6 transactionKeywords (by decide), h6 disputeKeywords (by decide),
      h6 rmKeywords (by decide), h6 verifyKeywords (by decide),
      h6 nostroKeywords (by decide), h6 nostroAccountsKeywords (by decide)]
    rfl
  refine ⟨hempty, by rw [hempty]; rfl, ?_, rfl⟩
  rw [runTrace, hempty]
  rfl

/-- Witness for C7 at the empty request text. -/
theorem no_keyword_empty_tags_direct_to_aggregator_witness :
    analyzeRequest "" = [] ∧
      routeActions (analyzeRequest "") = "format_response" ∧
      runTrace "" = [.analyzeRequestNode, .formatResponseNode] ∧
      (formatResponse initialState).final_response =
        "No actions were performed. Please specify what you\x27d like to do." :=
  no_keyword_empty_tags_direct_to_aggregator "" (by decide)

/-! ### Theorems for C9 and C10 -/

theorem dget_append (d₁ d₂ : Dict) (k : String) :
    dget (d₁ ++ d₂) k = (dget d₁ k).or (dget d₂ k) := by
  rw [dget, dget, dget, List.find?_append]
  cases List.find? (fun p => p.1 == k) d₁ <;> simp

/-- C10: `GeocodeAgent.run` keeps pre-existing `latitude`/`longitude`
values unchanged — the spread of the prior state overrides the freshly
computed coordinates — and the default Sacramento or San Francisco
coordinates appear in the output only when the input state lacked the
key. -/
theorem geocode_preserves_existing_coordinates (state out : Dict)
    (h : geocodeRun state = some out) :
    (∀ v, dget state "latitude" = some v → dget out "latitude" = some v) ∧
      (∀ v, dget state "longitude" = some v → dget out "longitude" = some v) ∧
      (dget state "latitude" = none →
        (dget out "latitude" = some (Value.vnum DEFAULT_LATITUDE) ∨
          dget out "latitude" = some (Value.vnum 377749))) ∧
      (dget state "longitude" = none →
        (dget out "longitude" = some (Value.vnum DEFAULT_LONGITUDE) ∨
          dget out "longitude" = some (Value.vnum (-1224194)))) := by
  unfold geocodeRun at h
  revert h
  cases hl : (dget state "location_name").getD (Value.vstr DEFAULT_LOCATION) with
  | vstr locname =>
    intro h
    have h2 : some (state ++
        (if pyLower locname == pyLower DEFAULT_LOCATION
         then [("latitude", Value.vnum DEFAULT_LATITUDE),
               ("longitude", Value.vnum DEFAULT_LONGITUDE)]
         else [("latitude", Value.vnum 377749),
               ("longitude", Value.vnum (-1224194))])) = some out := h
    have h3 := Option.some.inj h2
    subst h3
    refine ⟨?_, ?_, ?_, ?_⟩
    · intro v hv; rw [dget_append, hv]; rfl
    · intro v hv; rw [dget_append, hv]; rfl
    · intro hnone
      rw [dget_append, hnone]
      show dget (if pyLower locname == pyLower DEFAULT_LOCATION then _ else _) "latitude" = _ ∨
        dget (if pyLower locname == pyLower DEFAULT_LOCATION then _ else _) "latitude" = _
      by_cases hc : (pyLower locname == pyLower DEFAULT_LOCATION) = true
      · rw [if_pos hc]; left; decide
      · rw [if_neg hc]; right; decide
    · intro hnone
      rw [dget_append, hnone]
      show dget (if pyLower locname == pyLower DEFAULT_LOCATION then _ else _) "longitude" = _ ∨
        dget (if pyLower locname == pyLower DEFAULT_LOCATION then _ else _) "longitude" = _
      by_cases hc : (pyLower locname == pyLower DEFAULT_LOCATION) = true
      · rw [if_pos hc]; left; decide
      · rw [if_neg hc]; right; decide
  | vnum q => intro h; exact Option.noConfusion h
  | vnone => intro h; exact Option.noConfusion h

/-- Witness for C10: a state with a pre-existing latitude keeps it; the
absent longitude receives one of the two default longitudes. -/
theorem geocode_preserves_existing_coordinates_witness :
    dget ([("latitude", Value.vnum 99)] ++
        [("latitude", Value.vnum DEFAULT_LATITUDE),
         ("longitude", Value.vnum DEFAULT_LONGITUDE)]) "latitude" =
      some (Value.vnum 99) ∧
      (dget ([("latitude", Value.vnum 99)] ++
          [("latitude", Value.vnum DEFAULT_LATITUDE),
           ("longitude", Value.vnum DEFAULT_LONGITUDE)]) "longitude" =
          some (Value.vnum DEFAULT_LONGITUDE) ∨
        dget ([("latitude", Value.vnum 99)] ++
          [("latitude", Value.vnum DEFAULT_LATITUDE),
           ("longitude", Value.vnum DEFAULT_LONGITUDE)]) "longitude" =
          some (Value.vnum (-1224194))) := by
  have h : geocodeRun [("latitude", Value.vnum 99)] =
      some ([("latitude", Value.vnum 99)] ++
        [("latitude", Value.vnum DEFAULT_LATITUDE),
         ("longitude", Value.vnum DEFAULT_LONGITUDE)]) := by decide
  have H := geocode_preserves_existing_coordinates _ _ h
  exact ⟨H.1 (Value.vnum 99) (by decide), H.2.2.2 (by decide)⟩

/-- C9 (code bug): after the first run stores the weather under the key
`(None, None, None)` — because `WeatherAgent.run` returns a fresh dict
that has dropped `latitude`, `longitude` and `date` before the key is
computed — a second run with the identical query recomputes the real key,
misses the cache, and invokes the weather step again (invocation count 1,
not 0); the key the second run looks up is absent from the cache. -/
theorem weather_cache_never_hits :
    ((runMultiAgent [] (Value.vstr "weather in Sacramento, CA today")).map
        (fun r => r.2.2) = some 1) ∧
      ((runMultiAgent [] (Value.vstr "weather in Sacramento, CA today")).map
        (fun r => r.2.1) =
        some [(((none : Option Value), (none : Option Value), (none : Option Value)),
               Value.vstr "No location provided.")]) ∧
      ((runMultiAgent
            [(((none : Option Value), (none : Option Value), (none : Option Value)),
              Value.vstr "No location provided.")]
            (Value.vstr "weather in Sacramento, CA today")).map (fun r => r.2.2) =
        some 1) ∧
      clookup
          [(((none : Option Value), (none : Option Value), (none : Option Value)),
            Value.vstr "No location provided.")]
          (some (Value.vnum 377749), some (Value.vnum (-1224194)),
            some (Value.vstr "2025-08-05")) = none := by
  refine ⟨?_, ?_, ?_, ?_⟩ <;> decide

end Spec2Proof
